import Mathlib

/-!
Verification development for the TDS530 TCP logger (`src/main.py`).

The development shallowly embeds the pure computational content of the
program:

* the Python string primitives the code relies on (`str.splitlines`,
  `str.split` on a two-space separator, substring containment),
* the timestamp handling (`datetime.strptime` with format
  `"%Y/%m/%d %H:%M:%S"` and the matching `strftime`),
* the frame parser inlined in `TDS530DataCollector._run` (lines 75-93),
* the receive/accumulation loop of `_run` (lines 47-67),
* the `TDS530Api` state machine (`update_data`, `get_latest_data`,
  `start_saving`, `stop_saving`, `_write_data_to_file`).

Python `float` parsing and `str(float)` rendering are library behaviour,
not repository code; the development is parameterised over them (an
arbitrary value type `α`, a parse function `String → Option α` and a
rendering function `α → String`), because none of the verified claims
depends on the float grammar itself.  Byte-level UTF-8 decoding with
`errors="replace"` is total and deterministic, so received chunks are
modelled directly as decoded text.
-/

namespace TDS530

/-! ### Python string primitives -/

/-- Numeric value of a decimal digit character, `none` on anything else. -/
def readDigit (c : Char) : Option Nat :=
  if 48 ≤ c.toNat ∧ c.toNat ≤ 57 then some (c.toNat - 48) else none

/-- Line-boundary characters of Python `str.splitlines` other than `'\r'`
(which is handled separately so that `"\r\n"` counts as one boundary):
`'\n'`, `'\x0b'`, `'\x0c'`, `'\x1c'`, `'\x1d'`, `'\x1e'`, `'\x85'`,
`' '`, `' '`. -/
def isLineBoundary (c : Char) : Bool :=
  c.toNat = 10 ∨ c.toNat = 11 ∨ c.toNat = 12 ∨ c.toNat = 28 ∨
  c.toNat = 29 ∨ c.toNat = 30 ∨ c.toNat = 133 ∨ c.toNat = 8232 ∨
  c.toNat = 8233

/-- Worker for `pySplitlines`: `acc` holds the current line reversed.
Mirrors Python `str.splitlines()` (keepends false): `"\r\n"` is a single
boundary, a trailing boundary produces no final empty line. -/
def splitlinesAux : List Char → List Char → List (List Char)
  | [], acc => if acc.isEmpty then [] else [acc.reverse]
  | '\r' :: '\n' :: cs, acc => acc.reverse :: splitlinesAux cs []
  | '\r' :: cs, acc => acc.reverse :: splitlinesAux cs []
  | c :: cs, acc =>
      if isLineBoundary c then acc.reverse :: splitlinesAux cs []
      else splitlinesAux cs (c :: acc)

/-- Embedding of Python `str.splitlines()` as used on the received buffer
(`main.py` line 75). -/
def pySplitlines (s : String) : List String :=
  (splitlinesAux s.data []).map String.mk

/-- Whether `pat` occurs as a contiguous run inside the list. -/
def pyContainsChars (pat : List Char) : List Char → Bool
  | [] => pat.isEmpty
  | c :: t => pat.isPrefixOf (c :: t) || pyContainsChars pat t

/-- Embedding of Python substring containment `sub in s`
(`main.py` line 66). -/
def pyContains (s sub : String) : Bool :=
  pyContainsChars sub.data s.data

/-- Worker for `pySplitTwoSpaces`: Python `str.split(sep)` scans left to
right, emitting the accumulated field at every non-overlapping occurrence
of the separator and keeping empty fields.  The program only ever splits
on the constant `"  "` (two spaces, `main.py` line 86), so the separator
is specialised here. -/
def splitTwoSpacesAux : List Char → List Char → List (List Char)
  | [], acc => [acc.reverse]
  | ' ' :: ' ' :: rest, acc => acc.reverse :: splitTwoSpacesAux rest []
  | c :: rest, acc => splitTwoSpacesAux rest (c :: acc)

/-- Embedding of Python `line.split("  ")` (`main.py` line 86). -/
def pySplitTwoSpaces (s : String) : List String :=
  (splitTwoSpacesAux s.data []).map String.mk

/-! ### Timestamp model: `datetime.strptime(line, "%Y/%m/%d %H:%M:%S")`

CPython's `_strptime` compiles the format to a regular expression —
`%Y ↦ \d\d\d\d`, `%m ↦ 1[0-2]|0[1-9]|[1-9]`,
`%d ↦ 3[01]|[12]\d|0[1-9]|[1-9]| [1-9]` (note the final space-padded
alternative, a literal ASCII space), `%H ↦ 2[0-3]|[0-1]\d|\d`,
`%M ↦ [0-5]\d|\d`, `%S ↦ 6[0-1]|[0-5]\d|\d`, and every whitespace run in
the format (here the single space between date and time) becomes `\s+`,
matching one or more Unicode whitespace characters — requires the whole
string to be consumed, and then the `datetime` constructor validates
ranges (year ≥ 1, day vs. month length, second ≤ 59).  The regex
backtracking is deterministic for this format: a purely numeric field
reads two digits when two digits follow (its two-digit alternatives must
then accept), else one digit; the `%d` space alternative applies exactly
when the field starts with a space (no digit alternative can match
there); and the greedy `\s+` never has to give characters back, because
what follows it is a digit field and whitespace is never a digit.
`parseField`, `parseDayField` and `skipSpaces1` implement exactly
that. -/

/-- Calendar timestamp with second precision (`datetime.datetime` as used
by the program). -/
structure DateTime where
  year : Nat
  month : Nat
  day : Nat
  hour : Nat
  minute : Nat
  second : Nat
deriving DecidableEq, Repr

/-- Leap-year test of the proleptic Gregorian calendar used by
`datetime`. -/
def isLeapYear (y : Nat) : Bool :=
  y % 4 = 0 ∧ (y % 100 ≠ 0 ∨ y % 400 = 0)

/-- Number of days in a month, as validated by the `datetime`
constructor. -/
def daysInMonth (y m : Nat) : Nat :=
  if m = 2 then (if isLeapYear y then 29 else 28)
  else if m = 4 ∨ m = 6 ∨ m = 9 ∨ m = 11 then 30
  else 31

/-- One numeric field of the `strptime` regex: reads two digits if two
digits follow (the value must then lie in `[min2, max2]`), else one digit
(its value must be at least `oneMin`; `oneMin = 1` for `%m`/`%d`, whose
single-digit alternative is `[1-9]`, and `0` for `%H`/`%M`/`%S`). -/
def parseField (min2 max2 oneMin : Nat) : List Char → Option (Nat × List Char)
  | c1 :: c2 :: rest =>
      match readDigit c1, readDigit c2 with
      | some d1, some d2 =>
          let v := 10 * d1 + d2
          if min2 ≤ v ∧ v ≤ max2 then some (v, rest) else none
      | some d1, none =>
          if oneMin ≤ d1 then some (d1, c2 :: rest) else none
      | none, _ => none
  | [c1] =>
      match readDigit c1 with
      | some d1 => if oneMin ≤ d1 then some (d1, []) else none
      | none => none
  | [] => none

/-- The `%d` field: the numeric alternatives of `parseField 1 31 1` plus
the regex's final `" [1-9]"` alternative — a literal ASCII space followed
by a nonzero digit (space-padded day).  The alternatives are disjoint on
their first character, so the order of the regex alternation does not
matter. -/
def parseDayField : List Char → Option (Nat × List Char)
  | c1 :: c2 :: rest =>
      if c1 = ' ' then
        match readDigit c2 with
        | some d2 => if 1 ≤ d2 then some (d2, rest) else none
        | none => none
      else parseField 1 31 1 (c1 :: c2 :: rest)
  | cs => parseField 1 31 1 cs

/-- Whether Python's `re` class `\s` matches the character (the Unicode
whitespace set: space, code points 9-13, 28-31, 133, 160, 5760,
8192-8202, 8232, 8233, 8239, 8287 and 12288). -/
def isPySpace (c : Char) : Bool :=
  c.toNat = 32 ∨ (9 ≤ c.toNat ∧ c.toNat ≤ 13) ∨
  (28 ≤ c.toNat ∧ c.toNat ≤ 31) ∨ c.toNat = 133 ∨ c.toNat = 160 ∨
  c.toNat = 5760 ∨ (8192 ≤ c.toNat ∧ c.toNat ≤ 8202) ∨ c.toNat = 8232 ∨
  c.toNat = 8233 ∨ c.toNat = 8239 ∨ c.toNat = 8287 ∨ c.toNat = 12288

/-- The `\s+` the format's space compiles to: at least one whitespace
character, consumed greedily (maximal munch — equivalent to the regex
here because the token after it can only start with a digit). -/
def skipSpaces1 : List Char → Option (List Char)
  | c :: rest =>
      if isPySpace c then some (rest.dropWhile isPySpace) else none
  | [] => none

/-- The `%Y` field: exactly four digits. -/
def parseYear4 : List Char → Option (Nat × List Char)
  | c1 :: c2 :: c3 :: c4 :: rest =>
      match readDigit c1, readDigit c2, readDigit c3, readDigit c4 with
      | some d1, some d2, some d3, some d4 =>
          some (1000 * d1 + 100 * d2 + 10 * d3 + d4, rest)
      | _, _, _, _ => none
  | _ => none

/-- A literal separator character of the format string. -/
def expectChar (c : Char) : List Char → Option (List Char)
  | c' :: rest => if c' = c then some rest else none
  | [] => none

/-- Embedding of `datetime.datetime.strptime(line, "%Y/%m/%d %H:%M:%S")`
on the character list of the line: regex match of the whole string, then
the `datetime` constructor's range validation. -/
def parseTimestampChars (cs : List Char) : Option DateTime := do
  let (y, r1) ← parseYear4 cs
  let r2 ← expectChar '/' r1
  let (mo, r3) ← parseField 1 12 1 r2
  let r4 ← expectChar '/' r3
  let (d, r5) ← parseDayField r4
  let r6 ← skipSpaces1 r5
  let (h, r7) ← parseField 0 23 0 r6
  let r8 ← expectChar ':' r7
  let (mi, r9) ← parseField 0 59 0 r8
  let r10 ← expectChar ':' r9
  let (s, r11) ← parseField 0 61 0 r10
  if r11.isEmpty ∧ 1 ≤ y ∧ s ≤ 59 ∧ d ≤ daysInMonth y mo then
    some ⟨y, mo, d, h, mi, s⟩
  else
    none

/-- Embedding of `datetime.datetime.strptime(line, "%Y/%m/%d %H:%M:%S")`
(`main.py` line 80): `some` on success, `none` models `ValueError`. -/
def parseTimestamp (s : String) : Option DateTime :=
  parseTimestampChars s.data

/-- Decimal digit character for `d < 10`. -/
def digChar (d : Nat) : Char := Char.ofNat (48 + d)

/-- Two decimal digits, zero padded (`%m`, `%d`, `%H`, `%M`, `%S` of
`strftime`). -/
def pad2 (n : Nat) : List Char := [digChar (n / 10), digChar (n % 10)]

/-- Four decimal digits, zero padded (`%Y` of `strftime`; CPython pads
`%Y` only on some platforms, but the program only ever renders four-digit
years coming from the device). -/
def pad4 (n : Nat) : List Char :=
  [digChar (n / 1000), digChar (n / 100 % 10), digChar (n / 10 % 10),
   digChar (n % 10)]

/-- Character list of `dt.strftime("%Y/%m/%d %H:%M:%S")`. -/
def formatTimestampChars (t : DateTime) : List Char :=
  pad4 t.year ++ '/' :: (pad2 t.month ++ '/' :: (pad2 t.day ++
    ' ' :: (pad2 t.hour ++ ':' :: (pad2 t.minute ++ ':' :: pad2 t.second))))

/-- Embedding of `dt.strftime("%Y/%m/%d %H:%M:%S")` (`main.py` lines 147
and 159). -/
def formatTimestamp (t : DateTime) : String :=
  String.mk (formatTimestampChars t)

/-- Range validity of a timestamp as enforced by the `datetime`
constructor together with the four-digit `%Y` match. -/
def ValidDT (t : DateTime) : Prop :=
  1 ≤ t.year ∧ t.year ≤ 9999 ∧ 1 ≤ t.month ∧ t.month ≤ 12 ∧
  1 ≤ t.day ∧ t.day ≤ daysInMonth t.year t.month ∧
  t.hour ≤ 23 ∧ t.minute ≤ 59 ∧ t.second ≤ 59

instance (t : DateTime) : Decidable (ValidDT t) := by
  unfold ValidDT; infer_instance

/-! ### Frame parser (`TDS530DataCollector._run`, lines 75-93)

The parser is parameterised over the Python `float` constructor
`pyFloat : String → Option α` (library behaviour, not repository code):
`some v` models a successful `float(val_str)`, `none` models
`ValueError`. -/

/-- One parsed sample: the timestamp of line 0 plus the ordered channel
slots (`ret["time"]` / `ret["data"]` in the source); `none` in a slot is
Python `None` for a value field that failed `float` parsing. -/
def Reading (α : Type) := DateTime × List (Option α)

instance [DecidableEq α] : DecidableEq (Reading α) := by
  unfold Reading; infer_instance

/-- Channel extraction from the lines after the timestamp (`main.py`
lines 84-93): a line splitting on `"  "` into exactly two parts
contributes the `float` parse of its second part (value, or `None` slot
on `ValueError`); any other line is skipped and contributes no slot. -/
def parseChannels (pyFloat : String → Option α) : List String → List (Option α)
  | [] => []
  | line :: rest =>
      match pySplitTwoSpaces line with
      | [_, valStr] => pyFloat valStr :: parseChannels pyFloat rest
      | _ => parseChannels pyFloat rest

/-- Embedding of the frame-parsing block (`main.py` lines 75-93): split
the received buffer into lines; `none` (the `continue` paths) when fewer
than two lines are present or line 0 fails `strptime`; otherwise the
reading built from the remaining lines. -/
def parseFrame (pyFloat : String → Option α) (buf : String) :
    Option (Reading α) :=
  match pySplitlines buf with
  | l0 :: l1 :: rest =>
      match parseTimestamp l0 with
      | none => none
      | some ts => some (ts, parseChannels pyFloat (l1 :: rest))
  | _ => none

/-! ### Receive/accumulation loop (`TDS530DataCollector._run`, lines 47-67)

One exchange sends `"ST\r\n"` and then loops on `recv`.  Each iteration
of the inner loop is one of four events: a `socket.timeout` (caught and
retried), some other exception from `recv` (caught, `break`s out with the
partial buffer), a zero-length read (raises `ConnectionError`), or a text
chunk (appended to the buffer, after which the terminator containment is
checked).  `self._running` stays true during an exchange (cancellation is
outside the scope of the embedded claims), so the loop is driven by the
event list alone. -/

/-- The terminator constant exactly as the source writes it
(`main.py` line 53): `"END"` followed by seven spaces and no newline. -/
def codeTerminator : String := "END       "

/-- The terminator as the specification words it: `"END"` followed by
seven spaces and a newline. -/
def specTerminator : String := "END       \n"

/-- One result of a `recv` call, as distinguished by the source's
`try`/`except` arms and the zero-length check. -/
inductive RecvEvent where
  | timeout
  | recvError
  | closed
  | chunk (s : String)
deriving DecidableEq, Repr

/-- How the accumulation loop of one exchange ends. -/
inductive AccumResult where
  /-- `break` after the terminator was found in the buffer. -/
  | terminated (buf : String)
  /-- `break` out of the `except Exception` arm: the partial buffer is
  then handed to the parsing block. -/
  | aborted (buf : String)
  /-- `raise ConnectionError` on a zero-length read. -/
  | connectionLost (buf : String)
  /-- The event list ran out with the loop still blocked in `recv`. -/
  | blocked (buf : String)
deriving DecidableEq, Repr

/-- Embedding of the accumulation loop (`main.py` lines 55-67), folding
the events into the buffer `buf`. -/
def accumulate : List RecvEvent → String → AccumResult
  | [], buf => .blocked buf
  | .timeout :: evs, buf => accumulate evs buf
  | .recvError :: _, buf => .aborted buf
  | .closed :: _, buf => .connectionLost buf
  | .chunk s :: evs, buf =>
      let buf' := buf ++ s
      if pyContains buf' codeTerminator then .terminated buf'
      else accumulate evs buf'

/-- Outcome of one poll exchange (`main.py` lines 47-96) as seen by the
inner `while self._running` loop. -/
inductive StepResult (α : Type) where
  /-- Parsing succeeded; `recv_callback(ret)` is invoked and the inner
  loop continues on the same connection. -/
  | publish (r : Reading α)
  /-- One of the `continue` paths: the exchange is discarded and the
  inner loop continues on the same connection. -/
  | skip
  /-- `ConnectionError` propagated: the outer handler closes the socket
  and reconnects after the backoff sleep. -/
  | teardown
  /-- The exchange never finished (still blocked in `recv`). -/
  | blocked

/-- One exchange: accumulate from an empty buffer, then (on the `break`
paths) run the parsing block on whatever was accumulated. -/
def exchangeStep (pyFloat : String → Option α) (evs : List RecvEvent) :
    StepResult α :=
  match accumulate evs "" with
  | .connectionLost _ => .teardown
  | .blocked _ => .blocked
  | .terminated buf =>
      match parseFrame pyFloat buf with
      | some r => .publish r
      | none => .skip
  | .aborted buf =>
      match parseFrame pyFloat buf with
      | some r => .publish r
      | none => .skip

/-- Why the inner poll loop stopped consuming exchanges. -/
inductive LoopEnd where
  /-- A `ConnectionError` tore the session down. -/
  | torn
  /-- An exchange blocked in `recv`. -/
  | stuck
  /-- The supplied exchanges ran out. -/
  | ranOut
deriving DecidableEq, Repr

/-- The inner `while self._running` loop over a list of exchanges on one
open connection: the readings published in order, and how the loop left
the connection. -/
def innerLoop (pyFloat : String → Option α) :
    List (List RecvEvent) → List (Reading α) × LoopEnd
  | [] => ([], .ranOut)
  | evs :: rest =>
      match exchangeStep pyFloat evs with
      | .publish r =>
          let (rs, e) := innerLoop pyFloat rest
          (r :: rs, e)
      | .skip => innerLoop pyFloat rest
      | .teardown => ([], .torn)
      | .blocked => ([], .stuck)

/-! ### The `TDS530Api` state machine (`main.py` lines 116-195)

The mutable fields of the Python object are the record below.  The file
handle is an abstract type `F` together with a write primitive
`wp : F → String → Option F` (`none` models `file.write` raising) and an
open primitive `openPrim : String → Option F` (`none` models `open`
raising); `flush` and `close` never influence the modelled state and the
exceptions around them are swallowed by the source.  `latest_data` starts
as the falsy `{}` and is only ever replaced by a complete reading dict,
so it is modelled as `Option (Reading α)`.  Result dicts
`{"error": ...}` / `{"success": True}` are modelled by `SaveResult`, and
`get_latest_data`'s error dict by `none`. -/

/-- Mutable state of a `TDS530Api` instance. -/
structure ApiState (α F : Type) where
  latest : Option (Reading α)
  saveFile : Option F
  headerWritten : Bool

/-- State after `TDS530Api.__init__` (`main.py` lines 119-123). -/
def initialApi (α F : Type) : ApiState α F :=
  { latest := none, saveFile := none, headerWritten := false }

/-- Result of `start_saving` / `stop_saving`. -/
inductive SaveResult where
  /-- The dict `{"success": True, ...}`. -/
  | success
  /-- The dict `{"error": "Already saving"}`. -/
  | alreadySaving
  /-- The dict `{"error": "Not saving"}`. -/
  | notSaving
  /-- The dict `{"error": str(e)}` when `open` raised. -/
  | openFailed
deriving DecidableEq, Repr

/-- Python `"\t".join(items)`. -/
def tabJoin : List String → String
  | [] => ""
  | [s] => s
  | s :: rest => s ++ "\t" ++ tabJoin rest

/-- Python `f"{idx:03}"`: decimal text zero-padded to at least three
characters. -/
def pad3 (n : Nat) : String :=
  (if n < 10 then "00" else if n < 100 then "0" else "") ++ Nat.repr n

/-- Column name `f"CH{idx:03}"` (`main.py` line 143). -/
def chName (idx : Nat) : String := "CH" ++ pad3 idx

/-- The header line of `_write_data_to_file` (`main.py` line 143):
`"Time"` then one column name per channel position of the reading,
tab-separated, newline-terminated. -/
def headerLine (r : Reading α) : String :=
  tabJoin ("Time" :: (List.range r.2.length).map chName) ++ "\n"

/-- One data line of `_write_data_to_file` (`main.py` lines 147-149):
the reading's timestamp, then `str(val)` per channel (empty field for
`None`), tab-separated, newline-terminated. -/
def dataLine (toStr : α → String) (r : Reading α) : String :=
  tabJoin (formatTimestamp r.1 ::
    r.2.map (fun v => match v with | some x => toStr x | none => "")) ++ "\n"

/-- Embedding of `TDS530Api._write_data_to_file` (`main.py` lines
137-151).  The boolean reports whether a write raised (the state then
reflects exactly the mutations performed before the raise: the header
flag is set only after a successful header write, matching lines
144-145). -/
def write_data_to_file (wp : F → String → Option F) (toStr : α → String)
    (r : Reading α) (st : ApiState α F) : ApiState α F × Bool :=
  match st.saveFile with
  | none => (st, false)
  | some f =>
      if st.headerWritten then
        match wp f (dataLine toStr r) with
        | none => (st, true)
        | some f2 => ({ st with saveFile := some f2 }, false)
      else
        match wp f (headerLine r) with
        | none => (st, true)
        | some f1 =>
            let st1 : ApiState α F :=
              { st with saveFile := some f1, headerWritten := true }
            match wp f1 (dataLine toStr r) with
            | none => (st1, true)
            | some f2 => ({ st1 with saveFile := some f2 }, false)

/-- Embedding of `TDS530Api.update_data` (`main.py` lines 125-135): the
latest reading is replaced first; then, if saving is enabled, the file
write is attempted with any exception swallowed. -/
def update_data (wp : F → String → Option F) (toStr : α → String)
    (r : Reading α) (st : ApiState α F) : ApiState α F :=
  let st1 : ApiState α F := { st with latest := some r }
  match st1.saveFile with
  | none => st1
  | some _ => (write_data_to_file wp toStr r st1).1

/-- Embedding of `TDS530Api.get_latest_data` (`main.py` lines 153-161):
`none` models the `{"error": "No data available"}` dict, `some` the
`{"time": strftime(...), "data": ...}` dict. -/
def get_latest_data (st : ApiState α F) : Option (String × List (Option α)) :=
  match st.latest with
  | none => none
  | some (t, d) => some (formatTimestamp t, d)

/-- Embedding of `TDS530Api.start_saving` (`main.py` lines 163-174). -/
def start_saving (openPrim : String → Option F) (filepath : String)
    (st : ApiState α F) : ApiState α F × SaveResult :=
  match st.saveFile with
  | some _ => (st, .alreadySaving)
  | none =>
      match openPrim filepath with
      | some f =>
          ({ st with saveFile := some f, headerWritten := false }, .success)
      | none => (st, .openFailed)

/-- Embedding of `TDS530Api.stop_saving` (`main.py` lines 176-190). -/
def stop_saving (st : ApiState α F) : ApiState α F × SaveResult :=
  match st.saveFile with
  | none => (st, .notSaving)
  | some _ => ({ st with saveFile := none, headerWritten := false }, .success)

/-- Concrete never-failing file model: a file is the list of strings
written to it, `write` appends. -/
def wpAppend : List String → String → Option (List String) :=
  fun f s => some (f ++ [s])

/-- Concrete `open(filepath, "w")`: a fresh (truncated) file. -/
def openFresh : String → Option (List String) := fun _ => some []

/-- A sequence of Log Writer `write` calls folded over the state. -/
def writeSeq (wp : F → String → Option F) (toStr : α → String)
    (rs : List (Reading α)) (st : ApiState α F) : ApiState α F :=
  rs.foldl (fun s r => (write_data_to_file wp toStr r s).1) st

/-! ### The device-style frame formatter (spec §8, round-trip property)

Modelled from the spec: the source has no frame formatter (frames come
from the device), so the formatter of the round-trip property is built
from the spec's words — one timestamp line in `YYYY/MM/DD HH:MM:SS`
format, then one `<channel-id><two spaces><value>` line per channel with
an absent value rendered as non-numeric text, then the terminator line
(a frame contains its terminator, spec §3 "Frame"). -/

/-- Rendering of one channel slot: numeric values through `toStr`,
absent slots as the fixed non-numeric text `absentText`. -/
def renderValue (toStr : α → String) (absentText : String) :
    Option α → String
  | some v => toStr v
  | none => absentText

/-- One `<channel-id><two spaces><value>` line. -/
def channelLine (toStr : α → String) (absentText : String)
    (idv : String × Option α) : String :=
  idv.1 ++ "  " ++ renderValue toStr absentText idv.2

/-- Concatenation of lines, each terminated by a newline. -/
def concatLines : List String → String
  | [] => ""
  | l :: ls => l ++ "\n" ++ concatLines ls

/-- A device-style frame for a reading, with channel ids `ids`. -/
def formatFrame (toStr : α → String) (absentText : String)
    (ids : List String) (r : Reading α) : String :=
  formatTimestamp r.1 ++ "\n" ++
    concatLines ((ids.zip r.2).map (channelLine toStr absentText)) ++
    specTerminator

/-! ### Helper lemmas -/

/-- A string free of Python line boundaries: such a string is one single
line for `str.splitlines`. -/
def NoBreak (s : String) : Prop :=
  ∀ c ∈ s.data, c ≠ '\r' ∧ isLineBoundary c = false

instance (s : String) : Decidable (NoBreak s) := by
  unfold NoBreak; infer_instance

theorem readDigit_digChar {d : Nat} (h : d < 10) :
    readDigit (digChar d) = some d := by
  interval_cases d <;> decide

theorem digChar_not_cr {d : Nat} (h : d < 10) : digChar d ≠ '\r' := by
  interval_cases d <;> decide

theorem digChar_not_boundary {d : Nat} (h : d < 10) :
    isLineBoundary (digChar d) = false := by
  interval_cases d <;> decide

theorem splitlinesAux_nonbreak_cons (c : Char) (cs acc : List Char)
    (h1 : c ≠ '\r') (h2 : isLineBoundary c = false) :
    splitlinesAux (c :: cs) acc = splitlinesAux cs (c :: acc) := by
  rw [splitlinesAux.eq_4 acc c cs (fun _ hc _ => absurd hc h1) h1]
  simp [h2]

theorem splitlinesAux_newline (cs acc : List Char) :
    splitlinesAux ('\n' :: cs) acc = acc.reverse :: splitlinesAux cs [] := by
  rw [splitlinesAux.eq_4 acc '\n' cs (fun _ hc _ => by simp at hc) (by simp)]
  simp [isLineBoundary]

theorem splitlinesAux_append (cs rest acc : List Char)
    (h : ∀ c ∈ cs, c ≠ '\r' ∧ isLineBoundary c = false) :
    splitlinesAux (cs ++ '\n' :: rest) acc =
      (acc.reverse ++ cs) :: splitlinesAux rest [] := by
  induction cs generalizing acc with
  | nil => simp [splitlinesAux_newline]
  | cons c cs ih =>
      obtain ⟨h1, h2⟩ := h c (by simp)
      rw [List.cons_append, splitlinesAux_nonbreak_cons c _ _ h1 h2,
        ih _ (fun c hc => h c (by simp [hc]))]
      simp

theorem pySplitlines_append (s t : String) (h : NoBreak s) :
    pySplitlines (s ++ "\n" ++ t) = s :: pySplitlines t := by
  unfold pySplitlines
  have hdata : (s ++ "\n" ++ t).data = s.data ++ '\n' :: t.data := by
    simp [String.data_append]
  rw [hdata, splitlinesAux_append s.data t.data [] h]
  simp

/-! ### Claim theorems -/

/-- **C1** (code_bug evidence).  The claim says frame accumulation stops
exactly when the buffer contains `"END"` + seven spaces + a newline.  The
source's terminator constant (`main.py` line 53) is `"END"` + seven
spaces *without* the newline — contradicting the inline comment on that
very line — so a read ending right after the seven spaces already stops
the accumulation even though the claimed full marker (with its newline)
is nowhere in the buffer. -/
theorem C1_terminator_check_stops_without_newline :
    accumulate [RecvEvent.chunk "END       "] "" =
      AccumResult.terminated "END       " ∧
    pyContains "END       " specTerminator = false ∧
    codeTerminator ≠ specTerminator := by
  decide

/-- **C2**.  For a data line after the timestamp line: a line whose
two-space split does not have exactly two parts is skipped and
contributes no channel slot, while a line splitting into exactly
`[chId, valStr]` always contributes exactly one slot, holding the
`float` parse of `valStr` — `some` a value on success, the absent marker
`none` on failure.  Skip and null are therefore distinct outcomes. -/
theorem C2_skip_vs_null (pyFloat : String → Option α) (line : String)
    (rest : List String) :
    ((pySplitTwoSpaces line).length ≠ 2 →
      parseChannels pyFloat (line :: rest) = parseChannels pyFloat rest) ∧
    (∀ chId valStr, pySplitTwoSpaces line = [chId, valStr] →
      parseChannels pyFloat (line :: rest) =
        pyFloat valStr :: parseChannels pyFloat rest) := by
  constructor
  · intro h
    rcases hs : pySplitTwoSpaces line with _ | ⟨a, _ | ⟨b, _ | ⟨c, l⟩⟩⟩
    · simp [parseChannels, hs]
    · simp [parseChannels, hs]
    · exact absurd (by simp [hs]) h
    · simp [parseChannels, hs]
  · intro chId valStr hs
    simp [parseChannels, hs]

/-- **C2** witness: `"M001  BURNOUT"` splits into two parts and yields a
`none` slot under a float parser that rejects `"BURNOUT"`, while
`"garbage"` (one part) and `"END       "` (four parts) are skipped. -/
theorem C2_skip_vs_null_witness :
    parseChannels (fun s => if s = "1" then some (1 : Nat) else none)
        ["garbage", "M001  1", "M002  BURNOUT", "END       "] =
      [some (1 : Nat), none] := by
  have h1 := (C2_skip_vs_null (fun s => if s = "1" then some (1 : Nat) else none)
    "garbage" ["M001  1", "M002  BURNOUT", "END       "]).1 (by decide)
  have h2 := (C2_skip_vs_null (fun s => if s = "1" then some (1 : Nat) else none)
    "M001  1" ["M002  BURNOUT", "END       "]).2 "M001" "1" (by decide)
  have h3 := (C2_skip_vs_null (fun s => if s = "1" then some (1 : Nat) else none)
    "M002  BURNOUT" ["END       "]).2 "M002" "BURNOUT" (by decide)
  have h4 := (C2_skip_vs_null (fun s => if s = "1" then some (1 : Nat) else none)
    "END       " ([] : List String)).1 (by decide)
  rw [h1, h2, h3, h4]
  simp [parseChannels]

/-- **C4**.  Inside the read-accumulation loop of one exchange: a
per-read timeout alone never ends the loop (one timeout event is simply
consumed, and any number of timeouts leaves the loop still blocked in
`recv`), whereas a zero-length read immediately raises the
connection-lost error; that error terminates the exchange — the inner
poll loop ends and the session is torn down. -/
theorem C4_timeout_retries_closed_raises (pyFloat : String → Option α) :
    (∀ (evs : List RecvEvent) (buf : String),
      accumulate (.timeout :: evs) buf = accumulate evs buf) ∧
    (∀ (n : Nat) (buf : String),
      accumulate (List.replicate n .timeout) buf = .blocked buf) ∧
    (∀ (evs : List RecvEvent) (buf : String),
      accumulate (.closed :: evs) buf = .connectionLost buf) ∧
    (∀ (evs : List RecvEvent) (rest : List (List RecvEvent)) (buf : String),
      accumulate evs "" = .connectionLost buf →
      exchangeStep pyFloat evs = .teardown ∧
      innerLoop pyFloat (evs :: rest) = ([], .torn)) := by
  refine ⟨fun evs buf => rfl, fun n => ?_, fun evs buf => rfl,
    fun evs rest buf h => ?_⟩
  · induction n with
    | zero => intro buf; rfl
    | succ n ih => intro buf; simpa [List.replicate_succ, accumulate] using ih buf
  · constructor
    · simp [exchangeStep, h]
    · simp [innerLoop, exchangeStep, h]

/-- **C4** witness at a concrete exchange: a timeout, a chunk, then the
peer closing; the loop retried past the timeout, accumulated the chunk
and tore the session down on the zero-length read. -/
theorem C4_timeout_retries_closed_raises_witness :
    exchangeStep (fun s => if s = "1" then some (1 : Nat) else none)
        [.timeout, .chunk "abc", .closed] = .teardown ∧
    innerLoop (fun s => if s = "1" then some (1 : Nat) else none)
        [[.timeout, .chunk "abc", .closed]] = ([], .torn) := by
  exact (C4_timeout_retries_closed_raises _).2.2.2
    [.timeout, .chunk "abc", .closed] [] "abc" (by decide)

theorem write_data_to_file_latest (wp : F → String → Option F)
    (toStr : α → String) (r : Reading α) (st : ApiState α F) :
    (write_data_to_file wp toStr r st).1.latest = st.latest := by
  unfold write_data_to_file
  rcases st with ⟨latest, _ | f, hw⟩
  · rfl
  · cases hw
    · cases h1 : wp f (headerLine r) with
      | none => simp [h1]
      | some f1 =>
          cases h2 : wp f1 (dataLine toStr r) with
          | none => simp [h1, h2]
          | some f2 => simp [h1, h2]
    · cases h2 : wp f (dataLine toStr r) with
      | none => simp [h2]
      | some f2 => simp [h2]

/-- **C5**.  On a freshly constructed store, `get_latest_data` reports
the error dict (`none` in the embedding) rather than a default reading;
after one publish of a reading `r` it reports exactly `r`: the timestamp
rendered through `strftime("%Y/%m/%d %H:%M:%S")` and the channel
sequence unchanged — regardless of the logging state and even if the log
write misbehaves. -/
theorem C5_store_visibility (α F : Type) :
    get_latest_data (initialApi α F) = none ∧
    (∀ (wp : F → String → Option F) (toStr : α → String) (r : Reading α)
      (st : ApiState α F),
      get_latest_data (update_data wp toStr r st) =
        some (formatTimestamp r.1, r.2)) := by
  constructor
  · rfl
  · intro wp toStr r st
    have hl : (update_data wp toStr r st).latest = some r := by
      unfold update_data
      rcases hsf : st.saveFile with _ | f
      · simp [hsf]
      · simp [hsf, write_data_to_file_latest]
    obtain ⟨t, d⟩ := r
    simp [get_latest_data, hl]

/-- **C6**.  The attach/detach state machine of the Log Writer:
attaching while a log is open fails with the already-attached error and
changes nothing; detaching with no log open fails with the not-attached
error and changes nothing; a successful attach stores the freshly opened
file and resets the header flag; a successful detach clears the file and
the header flag, after which a new attach succeeds again. -/
theorem C6_attach_detach_state_machine (openPrim : String → Option F)
    (p : String) (st : ApiState α F) (f g : F) :
    (st.saveFile = some g → start_saving openPrim p st = (st, .alreadySaving)) ∧
    (st.saveFile = none → stop_saving st = (st, .notSaving)) ∧
    (st.saveFile = none → openPrim p = some f →
      start_saving openPrim p st =
        ({ st with saveFile := some f, headerWritten := false }, .success)) ∧
    (st.saveFile = some g →
      stop_saving st =
        ({ st with saveFile := none, headerWritten := false }, .success)) ∧
    (st.saveFile = some g → openPrim p = some f →
      start_saving openPrim p (stop_saving st).1 =
        ({ st with saveFile := some f, headerWritten := false }, .success)) := by
  refine ⟨fun h => ?_, fun h => ?_, fun h ho => ?_, fun h => ?_, fun h ho => ?_⟩
  · simp [start_saving, h]
  · simp [stop_saving, h]
  · simp [start_saving, h, ho]
  · simp [stop_saving, h]
  · simp [stop_saving, h, start_saving, ho]

/-- **C6** witness: walking a concrete store (over rational channel
values and list-of-lines files) through attach, attach-again, detach,
detach-again and re-attach exhibits every arm of the state machine. -/
theorem C6_attach_detach_state_machine_witness :
    start_saving openFresh "log.tsv"
        (initialApi Nat (List String)) =
      ({ initialApi Nat (List String) with
          saveFile := some [], headerWritten := false }, .success) ∧
    start_saving openFresh "log.tsv"
        { initialApi Nat (List String) with saveFile := some ([] : List String) } =
      ({ initialApi Nat (List String) with saveFile := some ([] : List String) },
        .alreadySaving) ∧
    stop_saving (initialApi Nat (List String)) =
      (initialApi Nat (List String), .notSaving) ∧
    start_saving openFresh "log.tsv"
        (stop_saving { initialApi Nat (List String) with
          saveFile := some ([] : List String), headerWritten := true }).1 =
      ({ initialApi Nat (List String) with
          saveFile := some [], headerWritten := false }, .success) := by
  refine ⟨?_, ?_, ?_, ?_⟩
  · exact (C6_attach_detach_state_machine openFresh "log.tsv" _ [] []).2.2.1
      rfl rfl
  · exact (C6_attach_detach_state_machine openFresh "log.tsv" _ [] []).1 rfl
  · exact (C6_attach_detach_state_machine openFresh "log.tsv" _ [] []).2.1 rfl
  · exact (C6_attach_detach_state_machine openFresh "log.tsv" _ [] []).2.2.2.2
      rfl rfl

/-- **C10**.  Publishing while logging is attached: the store is updated
to the new reading before the file write is attempted and any write
exception is swallowed inside `update_data`, so even under a write
primitive that always raises, `update_data` returns normally with the
store holding the new reading — `get_latest_data` then reports it — and
the attached file is left without the lost line (here: completely
unchanged, the very first write of the session having failed). -/
theorem C10_write_failure_contained (toStr : α → String) (r : Reading α)
    (st : ApiState α F) (f : F) (hsf : st.saveFile = some f)
    (hhw : st.headerWritten = false) :
    update_data (fun _ _ => none) toStr r st = { st with latest := some r } ∧
    get_latest_data (update_data (fun _ _ => none) toStr r st) =
      some (formatTimestamp r.1, r.2) := by
  have h1 : update_data (fun _ _ => none) toStr r st =
      { st with latest := some r } := by
    unfold update_data write_data_to_file
    simp [hsf, hhw]
  refine ⟨h1, ?_⟩
  obtain ⟨t, d⟩ := r
  rw [h1]
  simp [get_latest_data]

/-- **C10** witness: a store holding an older reading and an attached
empty log, hit by an always-raising write; the store reports the new
reading, the log is unchanged. -/
theorem C10_write_failure_contained_witness :
    update_data (fun _ _ => none) (fun v : Nat => Nat.repr v)
        (⟨⟨2024, 1, 2, 3, 4, 5⟩, [some (1 : Nat), none]⟩ : Reading Nat)
        { initialApi Nat (List String) with saveFile := some ([] : List String) } =
      { initialApi Nat (List String) with
          latest := some ⟨⟨2024, 1, 2, 3, 4, 5⟩, [some (1 : Nat), none]⟩,
          saveFile := some ([] : List String) } ∧
    get_latest_data (update_data (fun _ _ => none) (fun v : Nat => Nat.repr v)
        (⟨⟨2024, 1, 2, 3, 4, 5⟩, [some (1 : Nat), none]⟩ : Reading Nat)
        { initialApi Nat (List String) with saveFile := some ([] : List String) }) =
      some ("2024/01/02 03:04:05", [some (1 : Nat), none]) := by
  have h := C10_write_failure_contained (fun v : Nat => Nat.repr v)
    (⟨⟨2024, 1, 2, 3, 4, 5⟩, [some (1 : Nat), none]⟩ : Reading Nat)
    { initialApi Nat (List String) with saveFile := some ([] : List String) } [] rfl rfl
  refine ⟨h.1, ?_⟩
  rw [h.2]
  decide

/-- **C3**.  Malformed frames: a buffer splitting into fewer than two
lines is not parsed, a buffer whose line 0 fails the timestamp parse is
not parsed, and an exchange whose accumulated buffer fails parsing is
simply discarded — the inner poll loop carries on with the remaining
exchanges on the same open connection, publishing nothing for the
malformed one and not tearing the session down. -/
theorem C3_malformed_frame_discarded (pyFloat : String → Option α)
    (buf : String) :
    ((pySplitlines buf).length < 2 → parseFrame pyFloat buf = none) ∧
    (∀ l0 ls, pySplitlines buf = l0 :: ls → parseTimestamp l0 = none →
      parseFrame pyFloat buf = none) ∧
    (∀ (evs : List RecvEvent) (rest : List (List RecvEvent)),
      accumulate evs "" = .terminated buf → parseFrame pyFloat buf = none →
      innerLoop pyFloat (evs :: rest) = innerLoop pyFloat rest) := by
  refine ⟨fun h => ?_, fun l0 ls hs hts => ?_, fun evs rest hacc hpf => ?_⟩
  · rcases hs : pySplitlines buf with _ | ⟨a, _ | ⟨b, l⟩⟩
    · simp [parseFrame, hs]
    · simp [parseFrame, hs]
    · rw [hs] at h; simp only [List.length_cons] at h; omega
  · rcases ls with _ | ⟨l1, ls⟩
    · simp [parseFrame, hs]
    · simp [parseFrame, hs, hts]
  · simp [innerLoop, exchangeStep, hacc, hpf]

/-- **C3** witness: a one-line buffer is rejected for its line count, a
buffer with a garbled first line is rejected for its timestamp, and an
exchange that accumulated such a frame leaves the inner loop exactly
where it was. -/
theorem C3_malformed_frame_discarded_witness :
    parseFrame (fun s => if s = "1" then some (1 : Nat) else none)
      "orphan line" = none ∧
    parseFrame (fun s => if s = "1" then some (1 : Nat) else none)
      "notadate\nM001  1" = none ∧
    innerLoop (fun s => if s = "1" then some (1 : Nat) else none)
        [[.chunk "notadate\nEND       \n"]] =
      innerLoop (fun s => if s = "1" then some (1 : Nat) else none) [] := by
  refine ⟨?_, ?_, ?_⟩
  · exact (C3_malformed_frame_discarded _ "orphan line").1 (by decide)
  · exact (C3_malformed_frame_discarded _ "notadate\nM001  1").2.1
      "notadate" ["M001  1"] (by decide) (by decide)
  · exact (C3_malformed_frame_discarded _ "notadate\nEND       \n").2.2
      [.chunk "notadate\nEND       \n"] [] (by decide) (by decide)

theorem writeSeq_cons (wp : F → String → Option F) (toStr : α → String)
    (r : Reading α) (rs : List (Reading α)) (st : ApiState α F) :
    writeSeq wp toStr (r :: rs) st =
      writeSeq wp toStr rs (write_data_to_file wp toStr r st).1 := rfl

theorem writeSeq_header_already_written (toStr : α → String)
    (rs : List (Reading α)) (st : ApiState α (List String)) (f : List String)
    (hsf : st.saveFile = some f) (hhw : st.headerWritten = true) :
    writeSeq wpAppend toStr rs st =
      { st with saveFile := some (f ++ rs.map (dataLine toStr)) } := by
  induction rs generalizing st f with
  | nil =>
      rcases st with ⟨latest, sf, hw⟩
      simp only [] at hsf hhw
      subst hsf hhw
      simp [writeSeq]
  | cons r rs ih =>
      have hw : (write_data_to_file wpAppend toStr r st).1 =
          { st with saveFile := some (f ++ [dataLine toStr r]) } := by
        unfold write_data_to_file
        simp [hsf, hhw, wpAppend]
      rw [writeSeq_cons, hw,
        ih { st with saveFile := some (f ++ [dataLine toStr r]) }
          (f ++ [dataLine toStr r]) rfl hhw]
      simp

/-- **C7**.  One attach session of the Log Writer, over the list-of-lines
file model: starting from a freshly attached file (header flag down,
contents `f0`), writing the readings `r :: rs` appends first the header
line derived from the *first* reading `r` — literal `"Time"` then one
`CH{idx:03}` column per channel position of `r`, tab-separated — and then
exactly one tab-separated data line per reading (timestamp, then each
value rendered by `str`, absent values as empty fields).  The header flag
ends up set, so the header appears at most once per session, as the first
emitted line. -/
theorem C7_log_session_layout (toStr : α → String) (r : Reading α)
    (rs : List (Reading α)) (st : ApiState α (List String))
    (f0 : List String) (hsf : st.saveFile = some f0)
    (hhw : st.headerWritten = false) :
    writeSeq wpAppend toStr (r :: rs) st =
      { st with
          saveFile := some (f0 ++ headerLine r :: (r :: rs).map (dataLine toStr)),
          headerWritten := true } := by
  have hw : (write_data_to_file wpAppend toStr r st).1 =
      { st with
          saveFile := some ((f0 ++ [headerLine r]) ++ [dataLine toStr r]),
          headerWritten := true } := by
    unfold write_data_to_file
    simp [hsf, hhw, wpAppend]
  rw [writeSeq_cons, hw, writeSeq_header_already_written toStr rs _
    ((f0 ++ [headerLine r]) ++ [dataLine toStr r]) rfl rfl]
  simp

/-- **C7** witness: a 2-channel session of two writes produces literally
the header `Time, CH000, CH001` and one data line per reading, with the
absent channels as empty fields. -/
theorem C7_log_session_layout_witness :
    (writeSeq wpAppend Nat.repr
        [(⟨⟨2024, 1, 2, 3, 4, 5⟩, [some 1, none]⟩ : Reading Nat),
         ⟨⟨2024, 1, 2, 3, 4, 6⟩, [none, some 2]⟩]
        { initialApi Nat (List String) with
            saveFile := some ([] : List String) }).saveFile =
      some ["Time\tCH000\tCH001\n",
            "2024/01/02 03:04:05\t1\t\n",
            "2024/01/02 03:04:06\t\t2\n"] ∧
    (writeSeq wpAppend Nat.repr
        [(⟨⟨2024, 1, 2, 3, 4, 5⟩, [some 1, none]⟩ : Reading Nat),
         ⟨⟨2024, 1, 2, 3, 4, 6⟩, [none, some 2]⟩]
        { initialApi Nat (List String) with
            saveFile := some ([] : List String) }).headerWritten = true := by
  rw [C7_log_session_layout Nat.repr
    (⟨⟨2024, 1, 2, 3, 4, 5⟩, [some 1, none]⟩ : Reading Nat)
    [⟨⟨2024, 1, 2, 3, 4, 6⟩, [none, some 2]⟩]
    { initialApi Nat (List String) with saveFile := some ([] : List String) }
    [] rfl rfl]
  refine ⟨?_, rfl⟩
  decide

theorem daysInMonth_le (y m : Nat) : daysInMonth y m ≤ 31 := by
  unfold daysInMonth
  split
  · split <;> omega
  · split <;> omega

theorem expectChar_cons (c : Char) (rest : List Char) :
    expectChar c (c :: rest) = some rest := by
  simp [expectChar]

theorem parseYear4_pad4 {y : Nat} (hy : y ≤ 9999) (rest : List Char) :
    parseYear4 (pad4 y ++ rest) = some (y, rest) := by
  have h1 : y / 1000 < 10 := by omega
  have h2 : y / 100 % 10 < 10 := by omega
  have h3 : y / 10 % 10 < 10 := by omega
  have h4 : y % 10 < 10 := by omega
  simp [pad4, parseYear4, readDigit_digChar h1, readDigit_digChar h2,
    readDigit_digChar h3, readDigit_digChar h4]
  omega

theorem parseField_pad2 {n : Nat} (min2 max2 oneMin : Nat) (h99 : n ≤ 99)
    (hmin : min2 ≤ n) (hmax : n ≤ max2) (rest : List Char) :
    parseField min2 max2 oneMin (pad2 n ++ rest) = some (n, rest) := by
  have h1 : n / 10 < 10 := by omega
  have h2 : n % 10 < 10 := by omega
  have hv : 10 * (n / 10) + n % 10 = n := by omega
  simp [pad2, parseField, readDigit_digChar h1, readDigit_digChar h2, hv,
    hmin, hmax]

theorem parseField_pad2_nil {n : Nat} (min2 max2 oneMin : Nat) (h99 : n ≤ 99)
    (hmin : min2 ≤ n) (hmax : n ≤ max2) :
    parseField min2 max2 oneMin (pad2 n) = some (n, []) := by
  simpa using parseField_pad2 min2 max2 oneMin h99 hmin hmax []

theorem digChar_ne_space {d : Nat} (h : d < 10) : digChar d ≠ ' ' := by
  interval_cases d <;> decide

theorem isPySpace_digChar {d : Nat} (h : d < 10) :
    isPySpace (digChar d) = false := by
  interval_cases d <;> decide

theorem parseDayField_pad2 {d : Nat} (hd1 : 1 ≤ d) (hd31 : d ≤ 31)
    (rest : List Char) :
    parseDayField (pad2 d ++ rest) = some (d, rest) := by
  have he : pad2 d ++ rest = digChar (d / 10) :: digChar (d % 10) :: rest :=
    rfl
  have hne : digChar (d / 10) ≠ ' ' := digChar_ne_space (by omega)
  rw [he]
  simp only [parseDayField, if_neg hne]
  rw [← he]
  exact parseField_pad2 1 31 1 (by omega) hd1 hd31 rest

theorem skipSpaces1_pad2 {n : Nat} (h : n ≤ 99) (l : List Char) :
    skipSpaces1 (' ' :: (pad2 n ++ l)) = some (pad2 n ++ l) := by
  have he : pad2 n ++ l = digChar (n / 10) :: digChar (n % 10) :: l := rfl
  have hs : isPySpace (digChar (n / 10)) = false :=
    isPySpace_digChar (by omega)
  rw [he]
  simp [skipSpaces1, List.dropWhile_cons, hs,
    show isPySpace ' ' = true from by decide]

/-- Round trip of the timestamp embedding: `strptime` recovers exactly
what `strftime` rendered, for every in-range timestamp. -/
theorem parseTimestamp_format (t : DateTime) (h : ValidDT t) :
    parseTimestamp (formatTimestamp t) = some t := by
  obtain ⟨y, mo, d, hh, mi, ss⟩ := t
  obtain ⟨hy1', hy2', hm1', hm2', hd1', hd2', hh1', hmi1', hss1'⟩ := h
  have hy1 : 1 ≤ y := hy1'
  have hy2 : y ≤ 9999 := hy2'
  have hm1 : 1 ≤ mo := hm1'
  have hm2 : mo ≤ 12 := hm2'
  have hd1 : 1 ≤ d := hd1'
  have hd2 : d ≤ daysInMonth y mo := hd2'
  have hh1 : hh ≤ 23 := hh1'
  have hmi1 : mi ≤ 59 := hmi1'
  have hss1 : ss ≤ 59 := hss1'
  have hd31 : d ≤ 31 := le_trans hd2 (daysInMonth_le y mo)
  show parseTimestampChars (formatTimestampChars ⟨y, mo, d, hh, mi, ss⟩) = _
  unfold formatTimestampChars
  dsimp only
  rw [parseTimestampChars]
  simp only [parseYear4_pad4 hy2, Option.bind_eq_bind, Option.some_bind,
    expectChar_cons,
    parseField_pad2 1 12 1 (show mo ≤ 99 by omega) hm1 hm2,
    parseDayField_pad2 hd1 hd31,
    skipSpaces1_pad2 (show hh ≤ 99 by omega),
    parseField_pad2 0 23 0 (show hh ≤ 99 by omega) (Nat.zero_le hh) hh1,
    parseField_pad2 0 59 0 (show mi ≤ 99 by omega) (Nat.zero_le mi) hmi1,
    parseField_pad2_nil 0 61 0 (show ss ≤ 99 by omega) (Nat.zero_le ss)
      (show ss ≤ 61 by omega)]
  simp [hy1, hss1, hd2]

theorem noBreak_pad2 {n : Nat} (h : n ≤ 99) :
    ∀ c ∈ pad2 n, c ≠ '\r' ∧ isLineBoundary c = false := by
  intro c hc
  have h1 : n / 10 < 10 := by omega
  have h2 : n % 10 < 10 := by omega
  simp [pad2] at hc
  rcases hc with rfl | rfl
  · exact ⟨digChar_not_cr h1, digChar_not_boundary h1⟩
  · exact ⟨digChar_not_cr h2, digChar_not_boundary h2⟩

theorem noBreak_pad4 {n : Nat} (h : n ≤ 9999) :
    ∀ c ∈ pad4 n, c ≠ '\r' ∧ isLineBoundary c = false := by
  intro c hc
  have h1 : n / 1000 < 10 := by omega
  have h2 : n / 100 % 10 < 10 := by omega
  have h3 : n / 10 % 10 < 10 := by omega
  have h4 : n % 10 < 10 := by omega
  simp [pad4] at hc
  rcases hc with rfl | rfl | rfl | rfl
  · exact ⟨digChar_not_cr h1, digChar_not_boundary h1⟩
  · exact ⟨digChar_not_cr h2, digChar_not_boundary h2⟩
  · exact ⟨digChar_not_cr h3, digChar_not_boundary h3⟩
  · exact ⟨digChar_not_cr h4, digChar_not_boundary h4⟩

/-- The rendered timestamp is a single line: no character of it is a
Python line boundary. -/
theorem noBreak_formatTimestamp (t : DateTime) (h : ValidDT t) :
    NoBreak (formatTimestamp t) := by
  obtain ⟨y, mo, d, hh, mi, ss⟩ := t
  obtain ⟨hy1', hy2', hm1', hm2', hd1', hd2', hh1', hmi1', hss1'⟩ := h
  have hy2 : y ≤ 9999 := hy2'
  have hm2 : mo ≤ 12 := hm2'
  have hd31 : d ≤ 31 := le_trans hd2' (daysInMonth_le y mo)
  have hh1 : hh ≤ 23 := hh1'
  have hmi1 : mi ≤ 59 := hmi1'
  have hss1 : ss ≤ 59 := hss1'
  intro c hc
  have hc' : c ∈ formatTimestampChars ⟨y, mo, d, hh, mi, ss⟩ := hc
  unfold formatTimestampChars at hc'
  dsimp only at hc'
  simp only [List.mem_append, List.mem_cons] at hc'
  rcases hc' with h' | h' | h' | h' | h' | h' | h' | h' | h' | h' | h'
  · exact noBreak_pad4 hy2 c h'
  · subst h'; exact ⟨by decide, by decide⟩
  · exact noBreak_pad2 (show mo ≤ 99 by omega) c h'
  · subst h'; exact ⟨by decide, by decide⟩
  · exact noBreak_pad2 (show d ≤ 99 by omega) c h'
  · subst h'; exact ⟨by decide, by decide⟩
  · exact noBreak_pad2 (show hh ≤ 99 by omega) c h'
  · subst h'; exact ⟨by decide, by decide⟩
  · exact noBreak_pad2 (show mi ≤ 99 by omega) c h'
  · subst h'; exact ⟨by decide, by decide⟩
  · exact noBreak_pad2 (show ss ≤ 99 by omega) c h'

/-- **C8**.  A complete frame whose data section is empty — the
timestamp line immediately followed by the terminator line — parses to a
valid reading with zero channels; it is not rejected. -/
theorem C8_empty_data_section (pyFloat : String → Option α) (t : DateTime)
    (h : ValidDT t) :
    parseFrame pyFloat (formatTimestamp t ++ "\n" ++ specTerminator) =
      some (t, []) := by
  have hsl : pySplitlines (formatTimestamp t ++ "\n" ++ specTerminator) =
      formatTimestamp t :: pySplitlines specTerminator :=
    pySplitlines_append _ _ (noBreak_formatTimestamp t h)
  have hterm : pySplitlines specTerminator = ["END       "] := by decide
  have hskip : pySplitTwoSpaces "END       " = ["END", "", "", " "] := by
    decide
  rw [hterm] at hsl
  simp [parseFrame, hsl, parseTimestamp_format t h, parseChannels, hskip]

/-- **C8** witness at a concrete timestamp. -/
theorem C8_empty_data_section_witness :
    parseFrame (fun s => if s = "1" then some (1 : Nat) else none)
        ("2024/01/02 03:04:05" ++ "\n" ++ specTerminator) =
      some (⟨2024, 1, 2, 3, 4, 5⟩, []) := by
  have h := C8_empty_data_section
    (fun s => if s = "1" then some (1 : Nat) else none)
    (⟨2024, 1, 2, 3, 4, 5⟩ : DateTime) (by decide)
  rw [show formatTimestamp (⟨2024, 1, 2, 3, 4, 5⟩ : DateTime) =
    "2024/01/02 03:04:05" from rfl] at h
  exact h

theorem pySplitlines_concatLines (ls : List String)
    (h : ∀ l ∈ ls, NoBreak l) :
    pySplitlines (concatLines ls ++ specTerminator) = ls ++ ["END       "] := by
  induction ls with
  | nil => decide
  | cons l ls ih =>
      have hre : concatLines (l :: ls) ++ specTerminator =
          l ++ "\n" ++ (concatLines ls ++ specTerminator) := by
        simp [concatLines, String.append_assoc]
      rw [hre, pySplitlines_append _ _ (h l (by simp)),
        ih (fun l hl => h l (by simp [hl]))]
      simp

theorem parseChannels_format (pyFloat : String → Option α)
    (toStr : α → String) (absentText : String)
    (pairs : List (String × Option α))
    (habs : pyFloat absentText = none)
    (hnum : ∀ v, pyFloat (toStr v) = some v)
    (hsplit : ∀ p ∈ pairs,
      pySplitTwoSpaces (channelLine toStr absentText p) =
        [p.1, renderValue toStr absentText p.2]) :
    parseChannels pyFloat
        (pairs.map (channelLine toStr absentText) ++ ["END       "]) =
      pairs.map Prod.snd := by
  induction pairs with
  | nil =>
      have hskip : pySplitTwoSpaces "END       " = ["END", "", "", " "] := by
        decide
      simp [parseChannels, hskip]
  | cons p ps ih =>
      have hs := hsplit p (by simp)
      rcases p with ⟨chId, v⟩
      rcases v with _ | v
      · simp [parseChannels, hs, renderValue, habs,
          ih (fun q hq => hsplit q (by simp [hq]))]
      · simp [parseChannels, hs, renderValue, hnum v,
          ih (fun q hq => hsplit q (by simp [hq]))]

/-- **C9**.  Round trip: a reading with `N` channel slots (values or
absent markers), rendered as a device-style frame — the timestamp line in
`YYYY/MM/DD HH:MM:SS` form, one `<channel-id><two spaces><value>` line
per slot with absent slots as non-numeric text, and the terminator line —
parses back to exactly the original reading: same timestamp, same channel
count, values preserved, absent slots still absent.  The hypotheses say
the rendering is well formed: channel ids and value texts contain no line
boundaries and no stray two-space runs (their line splits back into the
two fields), the absent text does not parse as a float, and the float
parser inverts the value renderer. -/
theorem C9_format_parse_roundtrip (pyFloat : String → Option α)
    (toStr : α → String) (absentText : String) (t : DateTime)
    (ids : List String) (vals : List (Option α))
    (hts : ValidDT t) (hlen : ids.length = vals.length)
    (habs : pyFloat absentText = none)
    (hnum : ∀ v, pyFloat (toStr v) = some v)
    (hlines : ∀ p ∈ ids.zip vals,
      NoBreak (channelLine toStr absentText p) ∧
      pySplitTwoSpaces (channelLine toStr absentText p) =
        [p.1, renderValue toStr absentText p.2]) :
    parseFrame pyFloat (formatFrame toStr absentText ids (t, vals)) =
      some (t, vals) := by
  have hre : formatFrame toStr absentText ids (t, vals) =
      formatTimestamp t ++ "\n" ++
        (concatLines ((ids.zip vals).map (channelLine toStr absentText)) ++
          specTerminator) := by
    simp [formatFrame, String.append_assoc]
  have hnb : ∀ l ∈ (ids.zip vals).map (channelLine toStr absentText),
      NoBreak l := by
    intro l hl
    obtain ⟨p, hp, rfl⟩ := List.mem_map.mp hl
    exact (hlines p hp).1
  have hsl : pySplitlines (formatFrame toStr absentText ids (t, vals)) =
      formatTimestamp t ::
        ((ids.zip vals).map (channelLine toStr absentText) ++
          ["END       "]) := by
    rw [hre, pySplitlines_append _ _ (noBreak_formatTimestamp t hts),
      pySplitlines_concatLines _ hnb]
  obtain ⟨m1, mrest, hm⟩ : ∃ m1 mrest,
      (ids.zip vals).map (channelLine toStr absentText) ++ ["END       "] =
        m1 :: mrest := by
    rcases (ids.zip vals).map (channelLine toStr absentText) with _ | ⟨a, l⟩
    · exact ⟨"END       ", [], by simp⟩
    · exact ⟨a, l ++ ["END       "], by simp⟩
  have hstep : parseFrame pyFloat (formatFrame toStr absentText ids (t, vals)) =
      some (t, parseChannels pyFloat (m1 :: mrest)) := by
    rw [hm] at hsl
    simp [parseFrame, hsl, parseTimestamp_format t hts]
  rw [hstep, ← hm,
    parseChannels_format pyFloat toStr absentText (ids.zip vals) habs hnum
      (fun p hp => (hlines p hp).2),
    List.map_snd_zip ids vals (le_of_eq hlen.symm)]

/-- **C9** witness: a three-channel reading over boolean values (one
true, one absent, one false), with ids `M001`-`M003` and absent text
`"NA"`, survives the format/parse round trip. -/
theorem C9_format_parse_roundtrip_witness :
    parseFrame
        (fun s => if s = "1" then some true else
          if s = "0" then some false else none)
        (formatFrame (fun b => cond b "1" "0") "NA" ["M001", "M002", "M003"]
          (⟨2024, 1, 2, 3, 4, 5⟩, [some true, none, some false])) =
      some (⟨2024, 1, 2, 3, 4, 5⟩, [some true, none, some false]) := by
  exact C9_format_parse_roundtrip
    (fun s => if s = "1" then some true else
      if s = "0" then some false else none)
    (fun b => cond b "1" "0") "NA" ⟨2024, 1, 2, 3, 4, 5⟩
    ["M001", "M002", "M003"] [some true, none, some false]
    (by decide) (by decide) (by decide) (by decide) (by decide)

end TDS530
